import Mathlib

/-!
Verification of the gesture engine of `swipeable-views-fc`
(src/packages/swipeable-views-fc/src/index.tsx).

The source is a TypeScript function component.  Pure helpers are embedded as
Lean functions over `ℚ` (pixel coordinates and continuous indices); the
mutable refs and the process-wide ownership singleton become an explicit
state record threaded through the move handler.  JavaScript peculiarities
that the source relies on are embedded explicitly:

* the `useRef` slot `isSwiping` can hold `undefined`, a boolean, or (after
  line 308 of the source, which assigns the ref object itself) an object —
  modelled by `SwipeFlag`;
* numeric truthiness (`if (startX)`, `x || 0`) and the IEEE special values
  `NaN`/`Infinity` produced by `parseInt`/division — the latter modelled by
  `JNum` where they matter (the start-index back-computation).

Code imported by the source but absent from the repository
(`computeIndex`, `getDomTreeShapes`/`findNativeHandler`, the
`constant.UNCERTAINTY_THRESHOLD` module, and the release handler) is
modelled from the specification; each such definition is marked
`Modelled from the spec:` in its doc comment.
-/

namespace SwipeableViews

/-- The four axis variants of the `axis` prop. -/
inductive Axis where
  | x
  | xReverse
  | y
  | yReverse
deriving DecidableEq, Repr

/-- A (pageX, pageY) coordinate pair, as produced by a touch sample. -/
structure Point where
  pageX : ℚ
  pageY : ℚ
deriving DecidableEq, Repr

/-- A 2×2 matrix stored as in the source's `axisProperties.rotationMatrix`
entries: row `x` is `[m.x.1, m.x.2]`, row `y` is `[m.y.1, m.y.2]`. -/
structure RotationMatrix where
  x : ℚ × ℚ
  y : ℚ × ℚ
deriving DecidableEq, Repr

/-- `axisProperties.rotationMatrix` (source lines 42-59). -/
def rotationMatrix : Axis → RotationMatrix
  | .x        => { x := (1, 0),  y := (0, 1) }
  | .xReverse => { x := (-1, 0), y := (0, 1) }
  | .y        => { x := (0, 1),  y := (1, 0) }
  | .yReverse => { x := (0, -1), y := (1, 0) }

/-- `applyRotationMatrix(touch, axis)` (source lines 93-100). -/
def applyRotationMatrix (touch : Point) (axis : Axis) : Point :=
  let m := rotationMatrix axis
  { pageX := m.x.1 * touch.pageX + m.x.2 * touch.pageY
    pageY := m.y.1 * touch.pageX + m.y.2 * touch.pageY }

/-- Applying the transpose of the axis's rotation matrix (rows become
columns), the inverse mapping the spec's property refers to. -/
def applyTransposedRotationMatrix (touch : Point) (axis : Axis) : Point :=
  let m := rotationMatrix axis
  { pageX := m.x.1 * touch.pageX + m.y.1 * touch.pageY
    pageY := m.x.2 * touch.pageX + m.y.2 * touch.pageY }

/-- Transpose of a 2×2 matrix. -/
def matTranspose (m : RotationMatrix) : RotationMatrix :=
  { x := (m.x.1, m.y.1), y := (m.x.2, m.y.2) }

/-- Product of two 2×2 matrices in the row representation. -/
def matMul (a b : RotationMatrix) : RotationMatrix :=
  { x := (a.x.1 * b.x.1 + a.x.2 * b.y.1, a.x.1 * b.x.2 + a.x.2 * b.y.2)
    y := (a.y.1 * b.x.1 + a.y.2 * b.y.1, a.y.1 * b.x.2 + a.y.2 * b.y.2) }

/-- The 2×2 identity matrix. -/
def matId : RotationMatrix := { x := (1, 0), y := (0, 1) }

/-- The value of one entry of `axisProperties.transform` (source lines
30-35) applied to a translate amount `t`: the produced string is
`translate(xPct%, yPct%)`, represented here by its two percentage
components. -/
structure TranslatePct where
  xPct : ℚ
  yPct : ℚ
deriving DecidableEq, Repr

/-- `axisProperties.transform` (source lines 30-35): each axis maps a
translate amount `t` to a 2-D translate string, here represented by its
percentage components. -/
def transformTable : Axis → ℚ → TranslatePct
  | .x        => fun t => { xPct := -t, yPct := 0 }
  | .xReverse => fun t => { xPct := t,  yPct := 0 }
  | .y        => fun t => { xPct := 0,  yPct := -t }
  | .yReverse => fun t => { xPct := 0,  yPct := t }

/-- The transform `setIndexCurrent` applies to the container for a
continuous index (source line 388:
`axisProperties.transform[axis](_indexCurrent * 100)`). -/
def setIndexCurrentTransform (axis : Axis) (indexCurrent : ℚ) : TranslatePct :=
  transformTable axis (indexCurrent * 100)

/-- `mod(n, m)` (source lines 497-500).  JavaScript `%` on integers is the
truncated remainder, i.e. `Int.tmod`. -/
def mod (n m : ℤ) : ℤ :=
  let q := Int.tmod n m
  if q < 0 then q + m else q

/-- `checkIndexBounds({ index, children })` (source lines 485-492).
`console.warn(a, b)` logs its arguments unconditionally — the boolean is
merely the first logged value, not an assertion guard — so the function
emits exactly one warning on every call.  A warning is modelled by the
data it carries: the boolean first argument and the message's `index` and
`childrenCount`. -/
def checkIndexBounds (index : ℤ) (childrenCount : ℕ) : List (Bool × ℤ × ℕ) :=
  [(decide (index ≥ 0 ∧ index ≤ (childrenCount : ℤ)), index, childrenCount)]

/-- The mount-time bounds check (source lines 396-401): `checkIndexBounds`
runs only when `process.env.NODE_ENV !== 'production'`. -/
def mountBoundsCheck (isProduction : Bool) (index : ℤ) (childrenCount : ℕ) :
    List (Bool × ℤ × ℕ) :=
  if isProduction then [] else checkIndexBounds index childrenCount

/-- The possible JavaScript values of the `isSwiping` ref slot
(source line 203: `useRef<number | undefined>()`): it starts `undefined`,
line 298 assigns the boolean `false`, and line 308 (`this.isSwiping =
isSwiping`) assigns the `useRef` object itself — a plain object value. -/
inductive SwipeFlag where
  | undef
  | boolean (b : Bool)
  | refObject
deriving DecidableEq, Repr

/-- JavaScript truthiness of a `SwipeFlag` value: `undefined` and `false`
are falsy; `true` and any object are truthy. -/
def SwipeFlag.truthy : SwipeFlag → Bool
  | .undef => false
  | .boolean b => b
  | .refObject => true

/-- Source line 307 tests `isSwiping === true`, where `isSwiping` in scope
is the `useRef` object itself (the computed boolean is the unused local
`_isSwiping`): an object is never strictly equal to `true`. -/
def isSwipingRefStrictEqTrue : Bool := false

/-- Per-instance configuration and environment oracles for one move event.
`nativeHandlerFound` stands for the result of the DOM walk
`findNativeHandler(getDomTreeShapes(...))`, and `measuredViewLength`,
`containerTransform`, `paddingLeft`, `paddingRight` for the DOM
measurements read by `handleSwipeStart`; both helpers are imported but
absent from the repository, so their results enter as inputs.
`uncertaintyThreshold` — Modelled from the spec: the module providing
`constant.UNCERTAINTY_THRESHOLD` is absent from src/; the spec fixes it
only as a small constant pixel value, so it is a parameter here. -/
structure Env where
  selfNode : ℕ
  axis : Axis
  resistance : Bool
  ignoreNativeScroll : Bool
  childCount : ℕ
  uncertaintyThreshold : ℚ
  nativeHandlerFound : Bool
  measuredViewLength : ℚ
  containerTransform : Option (ℚ × ℚ)
  paddingLeft : ℚ
  paddingRight : ℚ
deriving DecidableEq, Repr

/-- The mutable state read and written by the gesture handlers: the
per-instance refs (`started`, `startX`, `startY`, `lastX`, `vx`,
`isSwiping`, `startIndex`, `indexCurrent`, `viewLength`), the state
variables `displaySameSlide`/`isDragging`, and the process-wide singleton
`nodeWhoClaimedTheScroll` (`owner`, holding a node identity or `null`). -/
structure MoveState where
  started : Bool
  owner : Option ℕ
  startX : ℚ
  startY : ℚ
  lastX : ℚ
  vx : ℚ
  isSwiping : SwipeFlag
  startIndex : ℚ
  indexCurrent : Option ℚ
  viewLength : ℚ
  displaySameSlide : Bool
  isDragging : Bool
deriving DecidableEq, Repr

/-- The observable outcome of one call to `handleSwipeMove`: the updated
state, whether `preventDefault` was called, the transform applied to the
container by `setIndexCurrent` (if any), and the index passed to the
`onSwitching(index, 'move')` notification (if any). -/
structure MoveResult where
  state : MoveState
  prevented : Bool
  transformApplied : Option TranslatePct
  switched : Option ℚ
deriving DecidableEq, Repr

/-- A call that returns without calling `preventDefault`, applying a
transform or notifying the observer. -/
def noOpResult (s : MoveState) : MoveResult :=
  { state := s, prevented := false, transformApplied := none, switched := none }

/-- Modelled from the spec: `computeIndex` (Index Computation, spec §4.2)
is called by the source but absent from src/.  `delta = (startX - pageX) /
viewLength`, `indexCandidate = startIndex + delta`; with resistance
disabled the candidate is clamped to `[0, childCount-1]` and an adjusted
startX equal to the current pageX is reported at an edge; with resistance
enabled the overshoot past an edge is damped by a sub-unity multiplier
(the spec fixes only that it is sub-unity; 1/2 is used here).  A
zero-length container is a no-op drag (spec §7). -/
def computeIndex (resistance : Bool) (childCount : ℕ)
    (pageX startX startIndex viewLength : ℚ) : ℚ × Option ℚ :=
  if viewLength = 0 then (startIndex, none)
  else
    let delta := (startX - pageX) / viewLength
    let candidate := startIndex + delta
    let maxIndex : ℚ := (childCount : ℚ) - 1
    if resistance then
      if candidate < 0 then (candidate / 2, none)
      else if candidate > maxIndex then
        (maxIndex + (candidate - maxIndex) / 2, none)
      else (candidate, none)
    else
      if candidate < 0 then (0, some pageX)
      else if candidate > maxIndex then (maxIndex, some pageX)
      else (candidate, none)

/-- `handleSwipeStart(event)` (source lines 223-257): records the measured
view length and the rotated start sample, resets velocity and the swipe
flag, and — when the container carries a non-identity transform —
back-computes `startIndex` from it.  The `|| 0` fallback and the IEEE
special values of the back-computation are analysed separately on the
`JNum` model below; here, over `ℚ`, a zero denominator yields 0. -/
def handleSwipeStart (env : Env) (s : MoveState) (ev : Point) : MoveState :=
  let touch := applyRotationMatrix ev env.axis
  let s1 : MoveState :=
    { s with
      viewLength := env.measuredViewLength
      startX := touch.pageX
      lastX := touch.pageX
      vx := 0
      startY := touch.pageY
      isSwiping := .undef
      started := true }
  match env.containerTransform with
  | none => s1
  | some (tx, ty) =>
    let r := applyRotationMatrix { pageX := tx, pageY := ty } env.axis
    { s1 with
      startIndex :=
        -r.pageX / (env.measuredViewLength - env.paddingLeft - env.paddingRight) }

/-- `handleSwipeMove(event)` (source lines 269-377), with
`this.<field>` read as the instance field (ref) of the same name, as the
surrounding hook code and the spec read it.

Control flow mirrors the source: (1) if no start point was set, run the
start handler and return; (2) if the ownership singleton is held by a
different node, return; (3) while `isSwiping` is `undefined`, run the
axis-decision block — whose line-307 condition compares the ref object
`isSwiping`, not the computed `_isSwiping`, to `true`; (4) the line-315
truthiness guard; (5) the swiping path: low-pass velocity update,
`computeIndex`, the native-scroll abort, the `if (startX)` truthiness
branch (an adjusted startX of 0 is falsy), ownership claim,
`setIndexCurrent` and the `onSwitching` notification.  The
`handleTransitionEnd` call inside `setIndexCurrent` (gated on
`animateTransitions`) is outside every claim and not tracked. -/
def handleSwipeMove (env : Env) (s : MoveState) (ev : Point) : MoveResult :=
  if s.started = false then
    noOpResult (handleSwipeStart env s ev)
  else if s.owner ≠ none ∧ s.owner ≠ some env.selfNode then
    noOpResult s
  else
    let touch := applyRotationMatrix ev env.axis
    if s.isSwiping = .undef then
      let dx := |touch.pageX - s.startX|
      let dy := |touch.pageY - s.startY|
      -- computed but never used afterwards, exactly as `_isSwiping` in the source
      let _isSwiping := decide (dx > dy ∧ dx > env.uncertaintyThreshold)
      if env.resistance = false ∧ (env.axis = .y ∨ env.axis = .yReverse) ∧
          ((s.indexCurrent = some 0 ∧ s.startX < touch.pageX) ∨
            (s.indexCurrent = some ((env.childCount : ℚ) - 1) ∧
              s.startX > touch.pageX)) then
        { state := { s with isSwiping := .boolean false }
          prevented := false, transformApplied := none, switched := none }
      else
        let prevented := decide (dx > dy)
        if isSwipingRefStrictEqTrue = true ∨ dy > env.uncertaintyThreshold then
          -- line 308: `this.isSwiping = isSwiping` stores the ref object itself
          { state := { s with isSwiping := .refObject, startX := touch.pageX }
            prevented := prevented, transformApplied := none, switched := none }
        else
          -- falls through to the line-315 guard with `isSwiping` still undefined
          { state := s, prevented := prevented
            transformApplied := none, switched := none }
    else if s.isSwiping.truthy = false then
      noOpResult s
    else
      let vx1 := s.vx * (1 / 2) + (touch.pageX - s.lastX) * (1 / 2)
      let s1 := { s with vx := vx1, lastX := touch.pageX }
      let ci := computeIndex env.resistance env.childCount touch.pageX
        s.startX s.startIndex s.viewLength
      if s.owner = none ∧ env.ignoreNativeScroll = false ∧
          env.nativeHandlerFound = true then
        -- native handler found: abort (velocity and lastX already updated)
        { state := s1, prevented := true, transformApplied := none, switched := none }
      else
        let s2 :=
          match ci.2 with
          | some a =>
            if a ≠ 0 then { s1 with startX := a }
            else if s1.owner = none then { s1 with owner := some env.selfNode }
            else s1
          | none =>
            if s1.owner = none then { s1 with owner := some env.selfNode }
            else s1
        let s3 :=
          if s2.displaySameSlide = true ∨ s2.isDragging = false then
            { s2 with displaySameSlide := false, isDragging := true }
          else s2
        { state := { s3 with indexCurrent := some ci.1 }
          prevented := true
          transformApplied := some (setIndexCurrentTransform env.axis ci.1)
          switched := some ci.1 }

/-- Modelled from the spec: the next integer index a committing release
settles on (spec §4.3 Release) — one past the lower integer when moving
forward, the lower integer itself when moving backward. -/
def nextIntegerIndex (indexCurrent : ℚ) (forward : Bool) : ℤ :=
  if forward then ⌊indexCurrent⌋ + 1 else ⌊indexCurrent⌋

/-- Modelled from the spec: the starting integer index a non-committing
release snaps back to (spec §4.3 Release). -/
def startIntegerIndex (indexCurrent : ℚ) (forward : Bool) : ℤ :=
  if forward then ⌊indexCurrent⌋ else ⌊indexCurrent⌋ + 1

/-- Modelled from the spec: the release commit condition (spec §4.3
Release): with `indexDecimal` the fractional part of the continuous index
and `delta = indexDecimal` when moving forward else `1 - indexDecimal`,
commit when `delta > hysteresis` or the velocity magnitude exceeds the
flick threshold with sign agreeing with the drag direction. -/
def releaseCommits (indexCurrent : ℚ) (forward : Bool)
    (hysteresis velocityMag flickThreshold : ℚ) (signAgrees : Bool) : Bool :=
  let indexDecimal := indexCurrent - (⌊indexCurrent⌋ : ℚ)
  let delta := if forward then indexDecimal else 1 - indexDecimal
  decide (delta > hysteresis) ||
    (decide (velocityMag > flickThreshold) && signAgrees)

/-- Modelled from the spec: release resolution (spec §4.3 Release — the
release handler is absent from src/): the settled index is the next
integer when the commit condition holds, the starting integer
otherwise. -/
def resolveRelease (indexCurrent : ℚ) (forward : Bool)
    (hysteresis velocityMag flickThreshold : ℚ) (signAgrees : Bool) : ℤ :=
  if releaseCommits indexCurrent forward hysteresis velocityMag flickThreshold
      signAgrees = true then
    nextIntegerIndex indexCurrent forward
  else
    startIntegerIndex indexCurrent forward

/-- A JavaScript number restricted to the values arising in the
start-index back-computation (source lines 239-254): an exact rational, a
signed infinity, or NaN.  Rounding is irrelevant to the claims; the IEEE
special values are what matters. -/
inductive JNum where
  | num (q : ℚ)
  | posInf
  | negInf
  | nan
deriving DecidableEq, Repr

/-- JavaScript truthiness of a number: `0` and `NaN` are falsy. -/
def JNum.truthy : JNum → Bool
  | .num q => decide (q ≠ 0)
  | .nan => false
  | _ => true

/-- JavaScript unary minus. -/
def jsNeg : JNum → JNum
  | .num q => .num (-q)
  | .posInf => .negInf
  | .negInf => .posInf
  | .nan => .nan

/-- JavaScript addition (`Infinity + -Infinity = NaN`, NaN propagates). -/
def jsAdd : JNum → JNum → JNum
  | .nan, _ => .nan
  | _, .nan => .nan
  | .num a, .num b => .num (a + b)
  | .posInf, .negInf => .nan
  | .negInf, .posInf => .nan
  | .posInf, _ => .posInf
  | _, .posInf => .posInf
  | .negInf, _ => .negInf
  | _, .negInf => .negInf

/-- JavaScript subtraction, as `a + (-b)`. -/
def jsSub (a b : JNum) : JNum := jsAdd a (jsNeg b)

/-- JavaScript multiplication (`0 * Infinity = NaN`, NaN propagates). -/
def jsMul : JNum → JNum → JNum
  | .nan, _ => .nan
  | _, .nan => .nan
  | .num a, .num b => .num (a * b)
  | .posInf, .posInf => .posInf
  | .posInf, .negInf => .negInf
  | .negInf, .posInf => .negInf
  | .negInf, .negInf => .posInf
  | .posInf, .num b => if b > 0 then .posInf else if b < 0 then .negInf else .nan
  | .num a, .posInf => if a > 0 then .posInf else if a < 0 then .negInf else .nan
  | .negInf, .num b => if b > 0 then .negInf else if b < 0 then .posInf else .nan
  | .num a, .negInf => if a > 0 then .negInf else if a < 0 then .posInf else .nan

/-- JavaScript division: a nonzero finite numerator over `0` yields a
signed infinity; `0 / 0` and any NaN operand yield NaN.  (Negative zero is
not distinguished: the denominator in the source is a difference of
measured lengths.) -/
def jsDiv : JNum → JNum → JNum
  | .nan, _ => .nan
  | _, .nan => .nan
  | .num a, .num b =>
    if b ≠ 0 then .num (a / b)
    else if a > 0 then .posInf
    else if a < 0 then .negInf
    else .nan
  | .posInf, .posInf => .nan
  | .posInf, .negInf => .nan
  | .negInf, .posInf => .nan
  | .negInf, .negInf => .nan
  | .posInf, .num b => if b < 0 then .negInf else .posInf
  | .negInf, .num b => if b < 0 then .posInf else .negInf
  | .num _, .posInf => .num 0
  | .num _, .negInf => .num 0

/-- JavaScript `a || b`: `a` when truthy, else `b`. -/
def jsOr (a b : JNum) : JNum := if a.truthy = true then a else b

/-- The rotated x-component of the parsed transform over JavaScript
numbers: `applyRotationMatrix({pageX: tx, pageY: ty}, axis).pageX`
(source lines 243-249), with `tx`/`ty` the `parseInt` results (possibly
NaN). -/
def jsRotatedPageX (axis : Axis) (tx ty : JNum) : JNum :=
  let m := rotationMatrix axis
  jsAdd (jsMul (.num m.x.1) tx) (jsMul (.num m.x.2) ty)

/-- The `startIndex` assignment of `handleSwipeStart` (source lines
251-253) over JavaScript numbers:
`-rotatedPageX / (viewLength - paddingLeft - paddingRight) || 0`. -/
def backComputeStartIndex (axis : Axis) (tx ty viewLength padL padR : JNum) :
    JNum :=
  jsOr
    (jsDiv (jsNeg (jsRotatedPageX axis tx ty))
      (jsSub (jsSub viewLength padL) padR))
    (.num 0)

/-- A `JNum` is finite when it is an ordinary number. -/
def JNum.finite : JNum → Bool
  | .num _ => true
  | _ => false

/-! Concrete environments, states and touches used to instantiate the
theorems below.  Each group belongs to one claim. -/

/-- C3 environment: instance with root node 1, default configuration. -/
def envC3 : Env :=
  { selfNode := 1, axis := .x, resistance := false, ignoreNativeScroll := false,
    childCount := 3, uncertaintyThreshold := 5, nativeHandlerFound := false,
    measuredViewLength := 100, containerTransform := none,
    paddingLeft := 0, paddingRight := 0 }

/-- C3 state: the ownership slot is held by a different node (2), and no
start point has been recorded for this session. -/
def stateC3unstarted : MoveState :=
  { started := false, owner := some 2, startX := 0, startY := 0, lastX := 0,
    vx := 0, isSwiping := .undef, startIndex := 0, indexCurrent := some 0,
    viewLength := 100, displaySameSlide := true, isDragging := false }

/-- C3 state with a recorded start point, same foreign owner. -/
def stateC3started : MoveState := { stateC3unstarted with started := true }

/-- C3 move sample. -/
def touchC3 : Point := { pageX := 7, pageY := 3 }

/-- C4 environment: axis x, uncertainty threshold 5. -/
def envC4 : Env :=
  { selfNode := 1, axis := .x, resistance := false, ignoreNativeScroll := true,
    childCount := 3, uncertaintyThreshold := 5, nativeHandlerFound := false,
    measuredViewLength := 100, containerTransform := none,
    paddingLeft := 0, paddingRight := 0 }

/-- C4 state: session started at (0, 0), gesture still undetermined. -/
def stateC4 : MoveState :=
  { started := true, owner := none, startX := 0, startY := 0, lastX := 0,
    vx := 0, isSwiping := .undef, startIndex := 0, indexCurrent := some 0,
    viewLength := 100, displaySameSlide := true, isDragging := false }

/-- C5 counterexample environment: axis x-reverse (so rotated coordinates
are non-positive), native scroll ignored. -/
def envC5rev : Env :=
  { selfNode := 1, axis := .xReverse, resistance := false,
    ignoreNativeScroll := true, childCount := 3, uncertaintyThreshold := 5,
    nativeHandlerFound := false, measuredViewLength := 100,
    containerTransform := none, paddingLeft := 0, paddingRight := 0 }

/-- C5 counterexample state: confirmed-swipe session started at rotated
coordinate -5, at index 0, ownership unclaimed. -/
def stateC5rev : MoveState :=
  { started := true, owner := none, startX := -5, startY := 0, lastX := -5,
    vx := 0, isSwiping := .refObject, startIndex := 0, indexCurrent := some 0,
    viewLength := 100, displaySameSlide := false, isDragging := true }

/-- C5 witness environment: axis x, native scroll ignored. -/
def envC5w : Env :=
  { selfNode := 1, axis := .x, resistance := false, ignoreNativeScroll := true,
    childCount := 3, uncertaintyThreshold := 5, nativeHandlerFound := false,
    measuredViewLength := 100, containerTransform := none,
    paddingLeft := 0, paddingRight := 0 }

/-- C5 witness state: confirmed-swipe session started at 0, at index 0. -/
def stateC5w : MoveState :=
  { started := true, owner := none, startX := 0, startY := 0, lastX := 0,
    vx := 0, isSwiping := .refObject, startIndex := 0, indexCurrent := some 0,
    viewLength := 100, displaySameSlide := false, isDragging := true }

/-- C8 environment: vertical axis, resistance disabled. -/
def envC8 : Env :=
  { selfNode := 1, axis := .y, resistance := false, ignoreNativeScroll := true,
    childCount := 3, uncertaintyThreshold := 5, nativeHandlerFound := false,
    measuredViewLength := 100, containerTransform := none,
    paddingLeft := 0, paddingRight := 0 }

/-- C8 state: undetermined session at index 0, started at (0, 0). -/
def stateC8 : MoveState :=
  { started := true, owner := none, startX := 0, startY := 0, lastX := 0,
    vx := 0, isSwiping := .undef, startIndex := 0, indexCurrent := some 0,
    viewLength := 100, displaySameSlide := true, isDragging := false }

/-- C8 touch: raw (0, 5); the y-axis rotation maps it to rotated pageX 5,
moving further back from index 0. -/
def touchC8 : Point := { pageX := 0, pageY := 5 }

/-! Helper lemmas. -/

/-- Truncated remainder of a negated dividend. -/
theorem tmod_neg_dividend (a m : ℤ) : (-a).tmod m = -(a.tmod m) := by
  have h1 := Int.tmod_add_tdiv a m
  have h2 := Int.tmod_add_tdiv (-a) m
  have h3 : (-a).tdiv m = -(a.tdiv m) := Int.neg_tdiv a m
  rw [h3] at h2
  linarith

/-- Dividing NaN yields NaN for every denominator. -/
theorem jsDiv_nan_left (b : JNum) : jsDiv .nan b = .nan := by
  cases b <;> rfl

/-! Claim theorems. -/

/-- Claim C1: the claim states that in non-production builds a console
warning is emitted when and only when the index prop lies outside
[0, childCount-1].  The code instead passes the bounds condition as the
first argument of `console.warn`, which logs its arguments
unconditionally, and the condition itself tests `index ≤ childrenCount`
rather than `index ≤ childrenCount - 1`: for the in-bounds index 0 of 3
children a warning is still emitted, and for the out-of-bounds index 3 of
3 children the condition argument is even `true`.  Only the
production-build gating behaves as claimed. -/
theorem checkIndexBounds_warns_unconditionally :
    ((0 : ℤ) ≥ 0 ∧ (0 : ℤ) ≤ 3 - 1) ∧
    mountBoundsCheck false 0 3 = [(true, 0, 3)] ∧
    mountBoundsCheck false 0 3 ≠ [] ∧
    ((3 : ℤ) > 3 - 1 ∧ checkIndexBounds 3 3 = [(true, 3, 3)]) ∧
    mountBoundsCheck true 0 3 = [] := by
  decide

/-- Claim C2: on release, with `indexDecimal` the fractional part of the
continuous index and `delta = indexDecimal` when moving forward else
`1 - indexDecimal`, the settled index is the next integer exactly when
`delta > hysteresis` or the velocity magnitude exceeds the flick threshold
with agreeing sign, and the starting integer otherwise; in particular with
hysteresis 0.6 a forward release at 2.5 settles at 2 and at 2.65 settles
at 3.  (The release handler is absent from src/; `resolveRelease` is
modelled from the spec.) -/
theorem resolveRelease_hysteresis_resolution :
    (∀ (indexCurrent hysteresis velocityMag flickThreshold : ℚ)
        (forward signAgrees : Bool),
      (resolveRelease indexCurrent forward hysteresis velocityMag
          flickThreshold signAgrees = nextIntegerIndex indexCurrent forward ↔
        releaseCommits indexCurrent forward hysteresis velocityMag
          flickThreshold signAgrees = true) ∧
      (releaseCommits indexCurrent forward hysteresis velocityMag
          flickThreshold signAgrees = false →
        resolveRelease indexCurrent forward hysteresis velocityMag
          flickThreshold signAgrees = startIntegerIndex indexCurrent forward)) ∧
    resolveRelease (5 / 2) true (3 / 5) 0 1 false = 2 ∧
    resolveRelease (53 / 20) true (3 / 5) 0 1 false = 3 := by
  refine ⟨?_, ?_, ?_⟩
  · intro i h v t fwd ag
    constructor
    · constructor
      · intro he
        by_contra hc
        rw [Bool.not_eq_true] at hc
        unfold resolveRelease at he
        rw [hc] at he
        simp only [Bool.false_eq_true, if_false] at he
        unfold startIntegerIndex nextIntegerIndex at he
        cases fwd <;> simp at he
      · intro hc
        unfold resolveRelease
        rw [hc]
        simp
    · intro hc
      unfold resolveRelease
      rw [hc]
      simp
  · norm_num [resolveRelease, releaseCommits, nextIntegerIndex,
      startIntegerIndex]
  · norm_num [resolveRelease, releaseCommits, nextIntegerIndex,
      startIntegerIndex]

/-- Claim C2 witness: a forward release at continuous index 2.5 with
hysteresis 0.6 and zero velocity does not commit and snaps back to the
starting integer. -/
theorem resolveRelease_hysteresis_resolution_w :
    resolveRelease (5 / 2) true (3 / 5) 0 1 false =
      startIntegerIndex (5 / 2) true :=
  (resolveRelease_hysteresis_resolution.1 (5 / 2) (3 / 5) 0 1 true false).2
    (by norm_num [releaseCommits])

/-- Claim C3 counterexample: a move event arriving while the ownership
slot is held by a different node but before any start point is set does
NOT leave the state unchanged — the handler runs the start handler
first (source lines 272-275 precede the ownership guard), mutating the
gesture-session fields.  This refutes the claim's unrestricted "for every
move event". -/
theorem handleSwipeMove_unstarted_foreign_owner_mutates :
    stateC3unstarted.owner ≠ none ∧
    stateC3unstarted.owner ≠ some envC3.selfNode ∧
    (handleSwipeMove envC3 stateC3unstarted touchC3).state ≠ stateC3unstarted := by
  refine ⟨by simp [stateC3unstarted], by simp [stateC3unstarted, envC3], ?_⟩
  simp [handleSwipeMove, handleSwipeStart, applyRotationMatrix, rotationMatrix,
    noOpResult, stateC3unstarted, envC3, touchC3, MoveState.mk.injEq]

/-- Claim C3 (amended): for every move event arriving when the session has
started, if the ownership slot is non-empty and holds an identity
different from this instance's root node, the handler returns immediately:
the state is unchanged, no default is prevented, no transform is applied
and the switching observer is not notified. -/
theorem handleSwipeMove_foreign_owner_noop (env : Env) (s : MoveState)
    (ev : Point) (hstarted : s.started = true) (howner : s.owner ≠ none)
    (hother : s.owner ≠ some env.selfNode) :
    handleSwipeMove env s ev = noOpResult s := by
  unfold handleSwipeMove
  rw [if_neg (by simp [hstarted]), if_pos ⟨howner, hother⟩]

/-- Claim C3 witness: with a started session and the slot held by node 2
while this instance's root is node 1, the move is a complete no-op. -/
theorem handleSwipeMove_foreign_owner_noop_w :
    handleSwipeMove envC3 stateC3started touchC3 = noOpResult stateC3started :=
  handleSwipeMove_foreign_owner_noop envC3 stateC3started touchC3
    (by decide) (by decide) (by decide)

/-- Claim C4: the claim states that an undetermined gesture is confirmed
as a swipe exactly when `dx > dy` and `dx` exceeds the uncertainty
threshold, and as a non-swipe when `dy` exceeds the threshold first.  The
code computes that boolean into the unused local `_isSwiping` but tests
and assigns the `useRef` object `isSwiping` instead (source lines
307-308), so: a move with dx = 10, dy = 0 and threshold 5 leaves the flag
`undefined` and the state unchanged (only the claimed speculative
`preventDefault` happens), while a move with dy = 10, dx = 0 stores the
truthy ref object — marking the session as swiping, the opposite of the
claimed non-swipe. -/
theorem handleSwipeMove_axis_decision_miswired :
    (handleSwipeMove envC4 stateC4 { pageX := 10, pageY := 0 }).state =
      stateC4 ∧
    (handleSwipeMove envC4 stateC4 { pageX := 10, pageY := 0 }).prevented =
      true ∧
    (handleSwipeMove envC4 stateC4
      { pageX := 0, pageY := 10 }).state.isSwiping = .refObject ∧
    SwipeFlag.truthy .refObject = true ∧
    (handleSwipeMove envC4 stateC4 { pageX := 0, pageY := 10 }).prevented =
      false := by
  refine ⟨?_, ?_, ?_, by decide, ?_⟩ <;>
    simp [handleSwipeMove, handleSwipeStart, applyRotationMatrix,
      rotationMatrix, isSwipingRefStrictEqTrue, noOpResult, stateC4, envC4,
      MoveState.mk.injEq] <;>
    norm_num

/-- Claim C5 counterexample: during a confirmed-swipe move, Index
Computation returns the adjusted startX 0 (edge reached at rotated
pageX 0 on the x-reverse axis), yet the handler does NOT replace startX
(still -5) and DOES claim ownership — `if (startX)` treats the adjusted
value 0 as absent.  This refutes the claim for a returned adjustment of
0. -/
theorem handleSwipeMove_zero_adjusted_startX_misbranch :
    (computeIndex false 3 0 (-5) 0 100).2 = some 0 ∧
    (handleSwipeMove envC5rev stateC5rev { pageX := 0, pageY := 0 }).state.owner
      = some 1 ∧
    (handleSwipeMove envC5rev stateC5rev
      { pageX := 0, pageY := 0 }).state.startX = -5 := by
  refine ⟨?_, ?_, ?_⟩ <;>
    simp [handleSwipeMove, computeIndex, applyRotationMatrix, rotationMatrix,
      SwipeFlag.truthy, noOpResult, stateC5rev, envC5rev] <;>
    norm_num

/-- Claim C5 (amended): during a confirmed-swipe move that the
native-scroll check does not abort, after Index Computation returns: if it
returned a nonzero adjusted startX, the session's startX is replaced by it
and ownership is not claimed; if it returned no adjustment — or an
adjusted startX of exactly 0, which the `if (startX)` truthiness test
treats as no adjustment — and the slot is empty, this instance's root
identity is written into the slot; in all these cases the returned
continuous index is applied to the container transform, recorded as the
current index, and the switching observer is notified with it. -/
theorem handleSwipeMove_confirmed_swipe_commit (env : Env) (s : MoveState)
    (ev : Point)
    (hstarted : s.started = true)
    (hguard : ¬(s.owner ≠ none ∧ s.owner ≠ some env.selfNode))
    (hflag : s.isSwiping ≠ .undef)
    (htruthy : s.isSwiping.truthy = true)
    (hnative : ¬(s.owner = none ∧ env.ignoreNativeScroll = false ∧
      env.nativeHandlerFound = true)) :
    (handleSwipeMove env s ev).transformApplied =
      some (setIndexCurrentTransform env.axis
        (computeIndex env.resistance env.childCount
          (applyRotationMatrix ev env.axis).pageX s.startX s.startIndex
          s.viewLength).1) ∧
    (handleSwipeMove env s ev).switched =
      some (computeIndex env.resistance env.childCount
        (applyRotationMatrix ev env.axis).pageX s.startX s.startIndex
        s.viewLength).1 ∧
    (handleSwipeMove env s ev).state.indexCurrent =
      some (computeIndex env.resistance env.childCount
        (applyRotationMatrix ev env.axis).pageX s.startX s.startIndex
        s.viewLength).1 ∧
    (∀ a : ℚ,
      (computeIndex env.resistance env.childCount
        (applyRotationMatrix ev env.axis).pageX s.startX s.startIndex
        s.viewLength).2 = some a → a ≠ 0 →
      (handleSwipeMove env s ev).state.startX = a ∧
      (handleSwipeMove env s ev).state.owner = s.owner) ∧
    (((computeIndex env.resistance env.childCount
          (applyRotationMatrix ev env.axis).pageX s.startX s.startIndex
          s.viewLength).2 = none ∨
        (computeIndex env.resistance env.childCount
          (applyRotationMatrix ev env.axis).pageX s.startX s.startIndex
          s.viewLength).2 = some 0) →
      s.owner = none →
      (handleSwipeMove env s ev).state.owner = some env.selfNode) := by
  unfold handleSwipeMove
  rw [if_neg (by simp [hstarted]), if_neg hguard]
  simp only []
  rw [if_neg hflag, if_neg (by simp [htruthy]), if_neg hnative]
  rcases hci : (computeIndex env.resistance env.childCount
      (applyRotationMatrix ev env.axis).pageX s.startX s.startIndex
      s.viewLength).2 with _ | a
  · simp only [hci]
    by_cases howner : s.owner = none <;>
      simp [howner, apply_ite MoveState.owner, apply_ite MoveState.startX,
        apply_ite MoveState.indexCurrent]
  · simp only [hci]
    by_cases ha0 : a = 0 <;> by_cases howner : s.owner = none <;>
      simp [ha0, howner, apply_ite MoveState.owner, apply_ite MoveState.startX,
        apply_ite MoveState.indexCurrent]

/-- Claim C5 witness: a confirmed-swipe move on axis x from startX 0 to
pageX 10 at index 0 makes Index Computation return the adjusted startX 10;
the handler replaces startX with it and leaves ownership unclaimed. -/
theorem handleSwipeMove_confirmed_swipe_commit_w :
    (handleSwipeMove envC5w stateC5w { pageX := 10, pageY := 0 }).state.startX
      = 10 ∧
    (handleSwipeMove envC5w stateC5w { pageX := 10, pageY := 0 }).state.owner
      = stateC5w.owner := by
  have h := handleSwipeMove_confirmed_swipe_commit envC5w stateC5w
    { pageX := 10, pageY := 0 } (by decide) (by decide) (by decide)
    (by decide) (by decide)
  exact h.2.2.2.1 10
    (by norm_num [computeIndex, applyRotationMatrix, rotationMatrix, envC5w,
      stateC5w])
    (by norm_num)

/-- Claim C6: applying a continuous index to the container (source line
388) produces the transform of the axis variant table at `100 × index`:
`translate(-100i%, 0)` for x, `translate(100i%, 0)` for x-reverse,
`translate(0, -100i%)` for y and `translate(0, 100i%)` for y-reverse. -/
theorem setIndexCurrentTransform_axis_table (i : ℚ) :
    setIndexCurrentTransform .x i = { xPct := -(100 * i), yPct := 0 } ∧
    setIndexCurrentTransform .xReverse i = { xPct := 100 * i, yPct := 0 } ∧
    setIndexCurrentTransform .y i = { xPct := 0, yPct := -(100 * i) } ∧
    setIndexCurrentTransform .yReverse i = { xPct := 0, yPct := 100 * i } := by
  refine ⟨?_, ?_, ?_, ?_⟩ <;>
    simp only [setIndexCurrentTransform, transformTable,
      TranslatePct.mk.injEq] <;>
    constructor <;> ring_nf

/-- Claim C6 witness: the transform for continuous index 2 on axis x. -/
theorem setIndexCurrentTransform_axis_table_w :
    setIndexCurrentTransform .x 2 = { xPct := -(100 * 2), yPct := 0 } :=
  (setIndexCurrentTransform_axis_table 2).1

/-- Claim C7: for every axis and every sample, applying the axis's
rotation matrix and then its transpose recovers the original sample;
equivalently, every matrix of the rotation table is orthogonal
(transpose times matrix is the identity). -/
theorem rotationMatrix_orthogonal :
    (∀ (axis : Axis) (p : Point),
      applyTransposedRotationMatrix (applyRotationMatrix p axis) axis = p) ∧
    (∀ axis : Axis,
      matMul (matTranspose (rotationMatrix axis)) (rotationMatrix axis) =
        matId) := by
  constructor
  · intro a p
    cases a <;> cases p <;>
      simp only [applyRotationMatrix, applyTransposedRotationMatrix,
        rotationMatrix, Point.mk.injEq] <;>
      constructor <;> ring
  · intro a
    cases a <;>
      simp only [matMul, matTranspose, rotationMatrix, matId,
        RotationMatrix.mk.injEq, Prod.mk.injEq] <;>
      norm_num

/-- Claim C7 witness: round trip of the sample (3, 4) on the y-reverse
axis. -/
theorem rotationMatrix_orthogonal_w :
    applyTransposedRotationMatrix
      (applyRotationMatrix { pageX := 3, pageY := 4 } .yReverse) .yReverse =
      { pageX := 3, pageY := 4 } :=
  rotationMatrix_orthogonal.1 .yReverse { pageX := 3, pageY := 4 }

/-- Claim C8: during the undetermined phase with resistance disabled and a
vertical axis, when the current index is 0 and the drag moves further back
(startX < rotated pageX) or the current index is childCount-1 and the drag
moves further forward, the handler marks the session non-swipe and returns
with no other effect; every subsequent move of that session is then a
complete no-op. -/
theorem handleSwipeMove_vertical_edge_nonswipe (env : Env) (s : MoveState)
    (ev : Point)
    (hstarted : s.started = true)
    (hguard : ¬(s.owner ≠ none ∧ s.owner ≠ some env.selfNode))
    (hundef : s.isSwiping = .undef)
    (hres : env.resistance = false)
    (haxis : env.axis = .y ∨ env.axis = .yReverse)
    (hedge : (s.indexCurrent = some 0 ∧
        s.startX < (applyRotationMatrix ev env.axis).pageX) ∨
      (s.indexCurrent = some ((env.childCount : ℚ) - 1) ∧
        s.startX > (applyRotationMatrix ev env.axis).pageX)) :
    handleSwipeMove env s ev =
      { state := { s with isSwiping := .boolean false }
        prevented := false, transformApplied := none, switched := none } ∧
    (∀ ev2 : Point,
      handleSwipeMove env { s with isSwiping := .boolean false } ev2 =
        noOpResult { s with isSwiping := .boolean false }) := by
  constructor
  · unfold handleSwipeMove
    rw [if_neg (by simp [hstarted]), if_neg hguard]
    simp only []
    rw [if_pos hundef, if_pos ⟨hres, haxis, hedge⟩]
  · intro ev2
    unfold handleSwipeMove
    rw [if_neg (by simp [hstarted]), if_neg hguard]
    simp only []
    rw [if_neg (by simp), if_pos (by simp [SwipeFlag.truthy])]

/-- Claim C8 witness: at index 0 on axis y, a raw move to (0, 5) (rotated
pageX 5 > startX 0) is decided non-swipe, and the next move is a no-op. -/
theorem handleSwipeMove_vertical_edge_nonswipe_w :
    handleSwipeMove envC8 stateC8 touchC8 =
      { state := { stateC8 with isSwiping := .boolean false }
        prevented := false, transformApplied := none, switched := none } ∧
    handleSwipeMove envC8 { stateC8 with isSwiping := .boolean false }
        touchC8 =
      noOpResult { stateC8 with isSwiping := .boolean false } := by
  have h := handleSwipeMove_vertical_edge_nonswipe envC8 stateC8 touchC8
    (by decide) (by decide) (by decide) (by decide) (Or.inl (by decide))
    (Or.inl ⟨by decide, by
      norm_num [applyRotationMatrix, rotationMatrix, stateC8, envC8,
        touchC8]⟩)
  exact ⟨h.1, h.2 touchC8⟩

/-- Claim C9: for every integer n and positive integer m, `mod(n, m)`
returns a value in [0, m) congruent to n modulo m; in particular
`mod(-1, 3) = 2`. -/
theorem mod_negative_safe :
    (∀ n m : ℤ, 0 < m → 0 ≤ mod n m ∧ mod n m < m ∧ m ∣ n - mod n m) ∧
    mod (-1) 3 = 2 := by
  constructor
  · intro n m hm
    have hq := Int.tmod_add_tdiv n m
    have hbounds : -m < Int.tmod n m ∧ Int.tmod n m < m := by
      rcases le_or_lt 0 n with hn | hn
      · have h1 : 0 ≤ Int.tmod n m := Int.tmod_nonneg m hn
        have h2 : Int.tmod n m < m := Int.tmod_lt_of_pos n hm
        constructor <;> linarith
      · have hn' : 0 ≤ -n := by linarith
        have h1 : 0 ≤ Int.tmod (-n) m := Int.tmod_nonneg m hn'
        have h2 : Int.tmod (-n) m < m := Int.tmod_lt_of_pos (-n) hm
        have h3 : Int.tmod (-n) m = -(Int.tmod n m) := tmod_neg_dividend n m
        rw [h3] at h1 h2
        constructor <;> linarith
    have hmod : mod n m =
        if Int.tmod n m < 0 then Int.tmod n m + m else Int.tmod n m := rfl
    rw [hmod]
    split
    · exact ⟨by omega, by omega, ⟨n.tdiv m - 1, by linarith⟩⟩
    · exact ⟨by omega, by omega, ⟨n.tdiv m, by linarith⟩⟩
  · decide

/-- Claim C9 witness: `mod(-7, 3)` is in [0, 3) and congruent to -7. -/
theorem mod_negative_safe_w :
    0 ≤ mod (-7) 3 ∧ mod (-7) 3 < 3 ∧ (3 : ℤ) ∣ -7 - mod (-7) 3 :=
  mod_negative_safe.1 (-7) 3 (by decide)

/-- Claim C10 counterexample: with parsed transform component 100 on axis
x and a measured view length of 0 (zero denominator), the back-computed
startIndex is `-Infinity` — a truthy value the `|| 0` fallback does not
replace — refuting the claim that startIndex is always finite. -/
theorem backComputeStartIndex_infinity_counterexample :
    backComputeStartIndex .x (.num 100) (.num 0) (.num 0) (.num 0) (.num 0) =
      .negInf ∧
    JNum.finite
      (backComputeStartIndex .x (.num 100) (.num 0) (.num 0) (.num 0)
        (.num 0)) = false := by
  constructor <;>
    norm_num [backComputeStartIndex, jsRotatedPageX, rotationMatrix, jsMul,
      jsAdd, jsNeg, jsSub, jsDiv, jsOr, JNum.truthy, JNum.finite]

/-- Claim C10 (amended): the back-computed startIndex is never NaN — a NaN
numerator (non-numeric parsed components, or 0/0 from a zero numerator
over a zero denominator) is falsy and replaced by 0 via `|| 0` — but a
zero denominator with a nonzero rotated numerator yields a signed
infinity, which is truthy and survives the fallback, so the result is not
always finite. -/
theorem backComputeStartIndex_never_nan (axis : Axis)
    (tx ty viewLength padL padR : JNum) :
    backComputeStartIndex axis tx ty viewLength padL padR ≠ JNum.nan ∧
    (jsRotatedPageX axis tx ty = JNum.nan →
      backComputeStartIndex axis tx ty viewLength padL padR = JNum.num 0) := by
  constructor
  · unfold backComputeStartIndex jsOr
    split
    · next h =>
      intro hcon
      rw [hcon] at h
      simp [JNum.truthy] at h
    · simp
  · intro hr
    unfold backComputeStartIndex jsOr
    rw [hr]
    simp [jsNeg, jsDiv_nan_left, JNum.truthy]

/-- Claim C10 witness: a NaN parsed component on axis x yields startIndex
0 (and in particular not NaN). -/
theorem backComputeStartIndex_never_nan_w :
    backComputeStartIndex .x .nan (.num 0) (.num 100) (.num 0) (.num 0) ≠
      JNum.nan ∧
    backComputeStartIndex .x .nan (.num 0) (.num 100) (.num 0) (.num 0) =
      JNum.num 0 :=
  ⟨(backComputeStartIndex_never_nan .x .nan (.num 0) (.num 100) (.num 0)
      (.num 0)).1,
    (backComputeStartIndex_never_nan .x .nan (.num 0) (.num 100) (.num 0)
      (.num 0)).2 (by decide)⟩

end SwipeableViews
